import Mathlib

/-!
Verification of the abuse-mitigation (throttling/lockout) engine of the
Attack-Defend login service (`src/app/app.py`).

Timestamps, windows and durations are modelled as integers (the code
uses epoch seconds; only `+`, `-`, `<`, `≤` are ever applied to them,
so the claims are insensitive to the sub-second fractional part of a
float timestamp); Python dictionaries are modelled as association lists over
`String` keys with last-write-replace semantics.
-/

namespace AttackDefend

/-- Lookup in an association list modelling a Python `dict.get`. -/
def dictGet {α : Type} : List (String × α) → String → Option α
  | [], _ => none
  | (k', v) :: rest, k => if k' = k then some v else dictGet rest k

/-- `d.get(k, dflt)` in Python: lookup with a default. -/
def dictGetD {α : Type} (d : List (String × α)) (k : String) (dflt : α) : α :=
  (dictGet d k).getD dflt

/-- `d[k] = v` in Python: replace the binding if present, else append. -/
def dictSet {α : Type} : List (String × α) → String → α → List (String × α)
  | [], k, v => [(k, v)]
  | (k', v') :: rest, k, v =>
      if k' = k then (k, v) :: rest else (k', v') :: dictSet rest k v

/-- The numeric defense configuration consumed by the engine
(`CONFIG` in `app.py`, numeric keys only). -/
structure Config where
  account_lock_threshold : ℤ
  account_lock_window : ℤ
  account_lock_duration : ℤ
  ip_block_threshold : ℤ
  ip_block_window : ℤ
  ip_block_duration : ℤ
  global_rate_threshold : ℤ
  global_rate_window : ℤ
  global_block_duration : ℤ
deriving DecidableEq, Repr

/-- The default configuration values of `CONFIG` in `app.py`. -/
def defaultConfig : Config where
  account_lock_threshold := 5
  account_lock_window := 300
  account_lock_duration := 600
  ip_block_threshold := 50
  ip_block_window := 60
  ip_block_duration := 600
  global_rate_threshold := 100
  global_rate_window := 60
  global_block_duration := 60

/-- The in-memory mutable state of the engine: the module-level
`account_attempts`, `locked_accounts`, `ip_attempts`, `blocked_ips`,
`global_attempts`, `global_block_until` of `app.py`. -/
structure EngineState where
  account_attempts : List (String × List ℤ)
  locked_accounts : List (String × ℤ)
  ip_attempts : List (String × List ℤ)
  blocked_ips : List (String × ℤ)
  global_attempts : List ℤ
  global_block_until : ℤ
deriving DecidableEq, Repr

/-- The initial (empty) engine state. -/
def emptyState : EngineState where
  account_attempts := []
  locked_accounts := []
  ip_attempts := []
  blocked_ips := []
  global_attempts := []
  global_block_until := 0

/-- `prune_old(timestamps, window)` in `app.py`: keep only timestamps
`t >= now - window`. The Python code reads the clock inside; here `now`
is an explicit parameter. -/
def prune_old (now : ℤ) (timestamps : List ℤ) (window : ℤ) : List ℤ :=
  timestamps.filter (fun t => decide (now - window ≤ t))

/-- `is_account_locked(username)` in `app.py`: locked iff
`now < locked_accounts.get(username, 0)`. -/
def is_account_locked (s : EngineState) (username : String) (now : ℤ) : Bool :=
  decide (now < dictGetD s.locked_accounts username 0)

/-- `is_ip_blocked(ip)` in `app.py`. -/
def is_ip_blocked (s : EngineState) (ip : String) (now : ℤ) : Bool :=
  decide (now < dictGetD s.blocked_ips ip 0)

/-- `check_global_block()` in `app.py`: `now < global_block_until`. -/
def check_global_block (s : EngineState) (now : ℤ) : Bool :=
  decide (now < s.global_block_until)

/-- `record_login_attempt(username, ip)` in `app.py`: append the current
timestamp to the account, ip, and global windows, prune each to its
window, then (re)arm any lock/block whose threshold is now met.
The global window is pruned from the front with a while-loop in the
source, modelled by `dropWhile`. -/
def record_login_attempt (cfg : Config) (s : EngineState) (username ip : String)
    (now : ℤ) : EngineState :=
  let lst := prune_old now (dictGetD s.account_attempts username [] ++ [now])
    cfg.account_lock_window
  let ilst := prune_old now (dictGetD s.ip_attempts ip [] ++ [now])
    cfg.ip_block_window
  let g := (s.global_attempts ++ [now]).dropWhile
    (fun t => decide (t < now - cfg.global_rate_window))
  { account_attempts := dictSet s.account_attempts username lst
    ip_attempts := dictSet s.ip_attempts ip ilst
    global_attempts := g
    locked_accounts :=
      if cfg.account_lock_threshold ≤ (lst.length : ℤ) then
        dictSet s.locked_accounts username (now + cfg.account_lock_duration)
      else s.locked_accounts
    blocked_ips :=
      if cfg.ip_block_threshold ≤ (ilst.length : ℤ) then
        dictSet s.blocked_ips ip (now + cfg.ip_block_duration)
      else s.blocked_ips
    global_block_until :=
      if cfg.global_rate_threshold ≤ (g.length : ℤ) then
        now + cfg.global_block_duration
      else s.global_block_until }

/-- The decision returned by one evaluation of a login attempt
(spec §4.5); the four branches of the `login` handler in `app.py`. -/
inductive Decision where
  | GlobalBlocked
  | AddressBlocked
  | AccountLocked
  | Admitted
deriving DecidableEq, Repr

/-- The throttling decision of the `login` handler (lines 184–200 of
`app.py`): global block, then ip block, then account lock, else record
the attempt and admit. Returns the decision and the updated state. -/
def evaluate (cfg : Config) (s : EngineState) (username ip : String) (now : ℤ) :
    Decision × EngineState :=
  if check_global_block s now then (.GlobalBlocked, s)
  else if is_ip_blocked s ip now then (.AddressBlocked, s)
  else if is_account_locked s username now then (.AccountLocked, s)
  else (.Admitted, record_login_attempt cfg s username ip now)

/-- The HTTP-visible outcome of `login`: the `ok` field and status code. -/
structure LoginResponse where
  ok : Bool
  status : Nat
deriving DecidableEq, Repr

/-- `VALID_USER` in `app.py`. -/
def VALID_USER_username : String := "testuser"

/-- `VALID_USER` in `app.py`. -/
def VALID_USER_password : String := "Password123"

/-- The full `login` handler of `app.py` (lines 176–214): the three
denial checks, then `record_login_attempt`, then credential comparison. -/
def login (cfg : Config) (s : EngineState) (username password ip : String)
    (now : ℤ) : LoginResponse × EngineState :=
  if check_global_block s now then (⟨false, 429⟩, s)
  else if is_ip_blocked s ip now then (⟨false, 429⟩, s)
  else if is_account_locked s username now then (⟨false, 423⟩, s)
  else
    let s' := record_login_attempt cfg s username ip now
    if username = VALID_USER_username ∧ password = VALID_USER_password then
      (⟨true, 200⟩, s')
    else (⟨false, 401⟩, s')

/-- Run a sequence of evaluations `(username, ip, now)`, threading the
state, and collect the decisions. -/
def evalSeq (cfg : Config) (s : EngineState) :
    List (String × String × ℤ) → List Decision × EngineState
  | [] => ([], s)
  | (u, ip, t) :: rest =>
      let r := evaluate cfg s u ip t
      let tail := evalSeq cfg r.2 rest
      (r.1 :: tail.1, tail.2)

/-- Thread the state through a sequence of evaluations. -/
def applyEvals (cfg : Config) (s : EngineState)
    (ops : List (String × String × ℤ)) : EngineState :=
  ops.foldl (fun st op => (evaluate cfg st op.1 op.2.1 op.2.2).2) s

/-- Thread the state through a sequence of full logins
`(username, password, ip, now)`. -/
def loginSeq (cfg : Config) (s : EngineState) :
    List (String × String × String × ℤ) → EngineState
  | [] => s
  | (u, p, ip, t) :: rest => loginSeq cfg (login cfg s u p ip t).2 rest

/-- A JSON-ish configuration value, as stored in the `CONFIG` dict. -/
inductive CVal where
  | num : ℤ → CVal
  | bool : Bool → CVal
  | str : String → CVal
  | strList : List String → CVal
deriving DecidableEq, Repr

/-- The whitelist `allowed` of `admin_config` in `app.py`. -/
def allowedKeys : List String :=
  ["account_lock_threshold", "account_lock_window", "account_lock_duration",
   "ip_block_threshold", "ip_block_window", "ip_block_duration",
   "global_rate_threshold", "global_rate_window", "global_block_duration",
   "fake_ip_enabled", "fake_ip_list", "admin_token"]

/-- The initial `CONFIG` dict of `app.py`. -/
def CONFIG0 : List (String × CVal) :=
  [("account_lock_threshold", .num 5), ("account_lock_window", .num 300),
   ("account_lock_duration", .num 600),
   ("ip_block_threshold", .num 50), ("ip_block_window", .num 60),
   ("ip_block_duration", .num 600),
   ("global_rate_threshold", .num 100), ("global_rate_window", .num 60),
   ("global_block_duration", .num 60),
   ("fake_ip_enabled", .bool false),
   ("fake_ip_list", .strList ["10.0.0.10", "10.0.0.11", "10.0.0.12"]),
   ("admin_token", .str "admintoken")]

/-- The whole mutable server state: the `CONFIG` dict plus the engine
counters and deadlines. -/
structure ServerState where
  config : List (String × CVal)
  engine : EngineState
deriving DecidableEq, Repr

/-- The update loop of `admin_config` in `app.py`:
`for k, v in data.items(): if k in allowed: CONFIG[k] = v`. -/
def mergeConfig (c : List (String × CVal)) : List (String × CVal) → List (String × CVal)
  | [] => c
  | kv :: rest => mergeConfig (if kv.1 ∈ allowedKeys then dictSet c kv.1 kv.2 else c) rest

/-- The POST branch of `admin_config` in `app.py` (lines 238–252): run
the `mergeConfig` loop over the request body, then reply `{"ok": True}`
unconditionally. Returns the new state and the `ok` flag. -/
def admin_config_post (st : ServerState) (data : List (String × CVal)) :
    ServerState × Bool :=
  ({ st with config := mergeConfig st.config data }, true)

/-- `admin_reset_state` in `app.py` (lines 254–266): clear every counter
dict, every lock/block dict, the global window, and set
`global_block_until = 0`. -/
def admin_reset_state (_s : EngineState) : EngineState :=
  { account_attempts := []
    locked_accounts := []
    ip_attempts := []
    blocked_ips := []
    global_attempts := []
    global_block_until := 0 }

/-! ### Association-list lemmas -/

theorem dictGet_dictSet_self {α : Type} (d : List (String × α)) (k : String) (v : α) :
    dictGet (dictSet d k v) k = some v := by
  induction d with
  | nil => simp [dictGet, dictSet]
  | cons kv rest ih =>
      obtain ⟨k', v'⟩ := kv
      by_cases h : k' = k
      · simp [dictSet, dictGet, h]
      · simp [dictSet, dictGet, h, ih]

theorem dictGet_dictSet_ne {α : Type} (d : List (String × α)) (k k' : String) (v : α)
    (h : k' ≠ k) : dictGet (dictSet d k v) k' = dictGet d k' := by
  have h' : k ≠ k' := Ne.symm h
  induction d with
  | nil => simp [dictGet, dictSet, h']
  | cons kv rest ih =>
      obtain ⟨k'', v''⟩ := kv
      by_cases hk : k'' = k
      · subst hk
        simp [dictSet, dictGet, h']
      · simp only [dictSet, if_neg hk, dictGet]
        by_cases hk' : k'' = k'
        · simp [hk']
        · simp [hk', ih]

theorem dictGetD_dictSet_self {α : Type} (d : List (String × α)) (k : String) (v dflt : α) :
    dictGetD (dictSet d k v) k dflt = v := by
  simp [dictGetD, dictGet_dictSet_self]

theorem dictGetD_dictSet_ne {α : Type} (d : List (String × α)) (k k' : String)
    (v dflt : α) (h : k' ≠ k) : dictGetD (dictSet d k v) k' dflt = dictGetD d k' dflt := by
  simp [dictGetD, dictGet_dictSet_ne d k k' v h]

/-! ### C4: pruning -/

/-- C4: after `prune_old` every retained timestamp `t` satisfies
`t ≥ now - window`, the retained timestamps appear in their original
relative order (the result is a sublist of the input), and pruning twice
with the same `now` and window equals pruning once. -/
theorem c4_prune_retains_recent_ordered_idempotent (l : List ℤ) (w now : ℤ) :
    (∀ t ∈ prune_old now l w, now - w ≤ t) ∧
    List.Sublist (prune_old now l w) l ∧
    prune_old now (prune_old now l w) w = prune_old now l w := by
  refine ⟨?_, ?_, ?_⟩
  · intro t ht
    exact of_decide_eq_true (List.mem_filter.mp ht).2
  · exact List.filter_sublist l
  · exact List.filter_eq_self.mpr (fun a ha => (List.mem_filter.mp ha).2)

/-- Witness for C4 at a concrete input: `5` is retained by the prune at
`now = 10`, window `6`, and satisfies the cutoff; sublist and
idempotence hold on `[2, 5, 9]`. -/
theorem c4_prune_witness :
    10 - 6 ≤ (5 : ℤ) ∧
    List.Sublist (prune_old 10 [2, 5, 9] 6) [2, 5, 9] ∧
    prune_old 10 (prune_old 10 [2, 5, 9] 6) 6 = prune_old 10 [2, 5, 9] 6 :=
  have h := c4_prune_retains_recent_ordered_idempotent [2, 5, 9] 6 10
  ⟨h.1 5 (by decide), h.2.1, h.2.2⟩

/-! ### C1: decision precedence -/

/-- C1: `evaluate` returns exactly one decision, chosen in strict
precedence order with first match winning: `GlobalBlocked` when the
global block is active, else `AddressBlocked` when the address is
blocked, else `AccountLocked` when the account is locked, else
`Admitted`; in particular a simultaneous global block and address block
yields `GlobalBlocked`, never `AddressBlocked`. -/
theorem c1_evaluate_precedence (cfg : Config) (s : EngineState) (u ip : String)
    (now : ℤ) :
    ((evaluate cfg s u ip now).1 = .GlobalBlocked ↔ check_global_block s now = true) ∧
    ((evaluate cfg s u ip now).1 = .AddressBlocked ↔
      (check_global_block s now = false ∧ is_ip_blocked s ip now = true)) ∧
    ((evaluate cfg s u ip now).1 = .AccountLocked ↔
      (check_global_block s now = false ∧ is_ip_blocked s ip now = false ∧
        is_account_locked s u now = true)) ∧
    ((evaluate cfg s u ip now).1 = .Admitted ↔
      (check_global_block s now = false ∧ is_ip_blocked s ip now = false ∧
        is_account_locked s u now = false)) ∧
    (check_global_block s now = true → is_ip_blocked s ip now = true →
      (evaluate cfg s u ip now).1 = .GlobalBlocked) := by
  cases hg : check_global_block s now <;>
    cases hi : is_ip_blocked s ip now <;>
      cases ha : is_account_locked s u now <;>
        simp [evaluate, hg, hi, ha]

/-- A state in which both the global block and one address block are
active at time 5. -/
def sBothBlocked : EngineState :=
  { emptyState with blocked_ips := [("1.2.3.4", 10)], global_block_until := 10 }

/-- Witness for C1: with a global block and an address block both
active, the decision is `GlobalBlocked`. -/
theorem c1_evaluate_witness :
    (evaluate defaultConfig sBothBlocked "bob" "1.2.3.4" 5).1 = .GlobalBlocked :=
  (c1_evaluate_precedence defaultConfig sBothBlocked "bob" "1.2.3.4" 5).2.2.2.2
    (by decide) (by decide)

/-! ### C2: check-then-record -/

/-- C2: the engine checks lock state before recording.  When any denial
is active the state is returned untouched (no counter, no deadline);
when none is active, the attempt is recorded via
`record_login_attempt`; and whenever all three checks pass the decision
is `Admitted`, even if the recording newly triggers a lock or block. -/
theorem c2_check_then_record (cfg : Config) (s : EngineState) (u ip : String)
    (now : ℤ) :
    ((evaluate cfg s u ip now).1 ≠ .Admitted → (evaluate cfg s u ip now).2 = s) ∧
    ((evaluate cfg s u ip now).1 = .Admitted →
      (evaluate cfg s u ip now).2 = record_login_attempt cfg s u ip now) ∧
    (check_global_block s now = false → is_ip_blocked s ip now = false →
      is_account_locked s u now = false →
      (evaluate cfg s u ip now).1 = .Admitted) := by
  cases hg : check_global_block s now <;>
    cases hi : is_ip_blocked s ip now <;>
      cases ha : is_account_locked s u now <;>
        simp [evaluate, hg, hi, ha]

/-- A configuration whose account-lock threshold is 1, so a single
recorded attempt immediately locks the account. -/
def cfgThreshold1 : Config := { defaultConfig with account_lock_threshold := 1 }

/-- Witness for C2: with threshold 1, the very attempt that newly
triggers the lock is still reported `Admitted` (and the lock indeed
exists afterwards, applying only to the next attempt). -/
theorem c2_check_then_record_witness :
    (evaluate cfgThreshold1 emptyState "bob" "2.2.2.2" 0).1 = .Admitted ∧
    is_account_locked (evaluate cfgThreshold1 emptyState "bob" "2.2.2.2" 0).2 "bob" 1
      = true :=
  ⟨(c2_check_then_record cfgThreshold1 emptyState "bob" "2.2.2.2" 0).2.2
      (by decide) (by decide) (by decide),
    by decide⟩

/-! ### C3: account lockout threshold -/

/-- Five attempts for account `alice` from one address at seconds
0 through 4. -/
def attempts5 : List (String × String × ℤ) :=
  [("alice", "1.1.1.1", 0), ("alice", "1.1.1.1", 1), ("alice", "1.1.1.1", 2),
   ("alice", "1.1.1.1", 3), ("alice", "1.1.1.1", 4)]

/-- The engine state reached from the empty state by the five attempts
of `attempts5` under the default configuration: the fifth attempt locks
`alice` until `604 = 4 + 600`. -/
def lockedState5 : EngineState where
  account_attempts := [("alice", [0, 1, 2, 3, 4])]
  locked_accounts := [("alice", 604)]
  ip_attempts := [("1.1.1.1", [0, 1, 2, 3, 4])]
  blocked_ips := []
  global_attempts := [0, 1, 2, 3, 4]
  global_block_until := 0

/-- The engine state after the first four attempts of `attempts5`. -/
def state4 : EngineState where
  account_attempts := [("alice", [0, 1, 2, 3])]
  locked_accounts := []
  ip_attempts := [("1.1.1.1", [0, 1, 2, 3])]
  blocked_ips := []
  global_attempts := [0, 1, 2, 3]
  global_block_until := 0

/-- C3: recording appends the timestamp to the account's window and
prunes it to `account_lock_window`; if the resulting count reaches
`account_lock_threshold` the account's unlock deadline becomes
`now + account_lock_duration`, otherwise the lock map is untouched.
With the default configuration (threshold 5, window 300): four attempts
within the window are all admitted, the fifth is itself recorded and
admitted, and every later evaluation for that account before the unlock
deadline 604 returns `AccountLocked`. -/
theorem c3_account_lock_threshold (cfg : Config) (s : EngineState) (u ip : String)
    (now : ℤ) :
    (dictGetD (record_login_attempt cfg s u ip now).account_attempts u [] =
      prune_old now (dictGetD s.account_attempts u [] ++ [now])
        cfg.account_lock_window) ∧
    (cfg.account_lock_threshold ≤
        ((prune_old now (dictGetD s.account_attempts u [] ++ [now])
            cfg.account_lock_window).length : ℤ) →
      dictGetD (record_login_attempt cfg s u ip now).locked_accounts u 0 =
        now + cfg.account_lock_duration) ∧
    (((prune_old now (dictGetD s.account_attempts u [] ++ [now])
          cfg.account_lock_window).length : ℤ) < cfg.account_lock_threshold →
      (record_login_attempt cfg s u ip now).locked_accounts = s.locked_accounts) ∧
    ((evalSeq defaultConfig emptyState attempts5).1 =
      [.Admitted, .Admitted, .Admitted, .Admitted, .Admitted]) ∧
    (∀ t ip', 4 ≤ t → t < 604 →
      (evaluate defaultConfig (evalSeq defaultConfig emptyState attempts5).2
        "alice" ip' t).1 = .AccountLocked) := by
  refine ⟨?_, ?_, ?_, by decide, ?_⟩
  · simp [record_login_attempt, dictGetD_dictSet_self]
  · intro h
    simp only [record_login_attempt]
    rw [if_pos h, dictGetD_dictSet_self]
  · intro h
    simp only [record_login_attempt]
    rw [if_neg (not_le.mpr h)]
  · intro t ip' h1 h2
    have hs : (evalSeq defaultConfig emptyState attempts5).2 = lockedState5 := by decide
    rw [hs]
    have hG : check_global_block lockedState5 t = false := by
      simp [check_global_block, lockedState5]
      omega
    have hI : is_ip_blocked lockedState5 ip' t = false := by
      simp [is_ip_blocked, lockedState5, dictGetD, dictGet]
      omega
    have hA : is_account_locked lockedState5 "alice" t = true := by
      simp [is_account_locked, lockedState5, dictGetD, dictGet]
      omega
    simp [evaluate, hG, hI, hA]

/-- Witness for C3: the fifth attempt (at second 4, on top of `state4`)
sets the unlock deadline to `4 + 600`; a first attempt from the empty
state leaves the lock map unchanged; and an evaluation at second 100
after the five attempts returns `AccountLocked`. -/
theorem c3_account_lock_witness :
    dictGetD (record_login_attempt defaultConfig state4 "alice" "1.1.1.1" 4).locked_accounts
      "alice" 0 = 4 + 600 ∧
    (record_login_attempt defaultConfig emptyState "alice" "1.1.1.1" 0).locked_accounts =
      emptyState.locked_accounts ∧
    (evaluate defaultConfig (evalSeq defaultConfig emptyState attempts5).2
      "alice" "7.7.7.7" 100).1 = .AccountLocked :=
  ⟨(c3_account_lock_threshold defaultConfig state4 "alice" "1.1.1.1" 4).2.1 (by decide),
   (c3_account_lock_threshold defaultConfig emptyState "alice" "1.1.1.1" 0).2.2.1
     (by decide),
   (c3_account_lock_threshold defaultConfig emptyState "x" "y" 0).2.2.2.2 100 "7.7.7.7"
     (by decide) (by decide)⟩

/-! ### C5: extend-only deadlines -/

/-- One evaluation step never moves any stored unlock/unblock deadline
or the global block deadline earlier, provided the configured durations
are non-negative. -/
theorem evaluate_deadline_mono (cfg : Config)
    (h1 : 0 ≤ cfg.account_lock_duration) (h2 : 0 ≤ cfg.ip_block_duration)
    (h3 : 0 ≤ cfg.global_block_duration) (s : EngineState) (u ip : String)
    (now : ℤ) :
    (∀ a, dictGetD s.locked_accounts a 0 ≤
      dictGetD (evaluate cfg s u ip now).2.locked_accounts a 0) ∧
    (∀ b, dictGetD s.blocked_ips b 0 ≤
      dictGetD (evaluate cfg s u ip now).2.blocked_ips b 0) ∧
    s.global_block_until ≤ (evaluate cfg s u ip now).2.global_block_until := by
  by_cases hg : check_global_block s now = true
  · simp [evaluate, hg]
  · rw [Bool.not_eq_true] at hg
    by_cases hi : is_ip_blocked s ip now = true
    · simp [evaluate, hg, hi]
    · rw [Bool.not_eq_true] at hi
      by_cases ha : is_account_locked s u now = true
      · simp [evaluate, hg, hi, ha]
      · rw [Bool.not_eq_true] at ha
        have hgle : s.global_block_until ≤ now := by
          have h := hg
          simp only [check_global_block, decide_eq_false_iff_not, not_lt] at h
          exact h
        have hale : dictGetD s.locked_accounts u 0 ≤ now := by
          have h := ha
          simp only [is_account_locked, decide_eq_false_iff_not, not_lt] at h
          exact h
        have hile : dictGetD s.blocked_ips ip 0 ≤ now := by
          have h := hi
          simp only [is_ip_blocked, decide_eq_false_iff_not, not_lt] at h
          exact h
        have he : (evaluate cfg s u ip now).2 =
            record_login_attempt cfg s u ip now := by
          simp [evaluate, hg, hi, ha]
        rw [he]
        simp only [record_login_attempt]
        refine ⟨?_, ?_, ?_⟩
        · intro a
          split
          · by_cases hau : a = u
            · subst hau
              rw [dictGetD_dictSet_self]
              linarith
            · rw [dictGetD_dictSet_ne _ _ _ _ _ hau]
          · exact le_refl _
        · intro b
          split
          · by_cases hbi : b = ip
            · subst hbi
              rw [dictGetD_dictSet_self]
              linarith
            · rw [dictGetD_dictSet_ne _ _ _ _ _ hbi]
          · exact le_refl _
        · split
          · linarith
          · exact le_refl _

/-- C5: along any sequence of evaluations, with non-negative configured
durations, every account unlock deadline, every address unblock
deadline, and the global block deadline is non-decreasing: re-triggering
never shortens an active denial. -/
theorem c5_deadlines_extend_only (cfg : Config)
    (h1 : 0 ≤ cfg.account_lock_duration) (h2 : 0 ≤ cfg.ip_block_duration)
    (h3 : 0 ≤ cfg.global_block_duration) (s : EngineState)
    (ops : List (String × String × ℤ)) :
    (∀ a, dictGetD s.locked_accounts a 0 ≤
      dictGetD (applyEvals cfg s ops).locked_accounts a 0) ∧
    (∀ b, dictGetD s.blocked_ips b 0 ≤
      dictGetD (applyEvals cfg s ops).blocked_ips b 0) ∧
    s.global_block_until ≤ (applyEvals cfg s ops).global_block_until := by
  induction ops generalizing s with
  | nil => exact ⟨fun a => le_refl _, fun b => le_refl _, le_refl _⟩
  | cons op rest ih =>
      obtain ⟨u, ip, t⟩ := op
      have hstep := evaluate_deadline_mono cfg h1 h2 h3 s u ip t
      have hrest := ih (evaluate cfg s u ip t).2
      have happ : applyEvals cfg s ((u, ip, t) :: rest) =
          applyEvals cfg (evaluate cfg s u ip t).2 rest := rfl
      rw [happ]
      exact ⟨fun a => le_trans (hstep.1 a) (hrest.1 a),
             fun b => le_trans (hstep.2.1 b) (hrest.2.1 b),
             le_trans hstep.2.2 hrest.2.2⟩

/-- A state with an account lock, an address block, and a global block
already armed. -/
def preLocked : EngineState where
  account_attempts := [("alice", [0])]
  locked_accounts := [("alice", 2)]
  ip_attempts := [("1.1.1.1", [0])]
  blocked_ips := [("1.1.1.1", 3)]
  global_attempts := [0]
  global_block_until := 1

/-- A mixed sequence of evaluations touching several subjects. -/
def mixedOps : List (String × String × ℤ) :=
  [("alice", "1.1.1.1", 0), ("bob", "2.2.2.2", 2), ("alice", "3.3.3.3", 4),
   ("carol", "1.1.1.1", 5), ("alice", "1.1.1.1", 7)]

/-- Witness for C5: the pre-armed deadlines of `preLocked` never move
earlier along the evaluations of `mixedOps`. -/
theorem c5_deadlines_witness :
    dictGetD preLocked.locked_accounts "alice" 0 ≤
      dictGetD (applyEvals defaultConfig preLocked mixedOps).locked_accounts "alice" 0 ∧
    dictGetD preLocked.blocked_ips "1.1.1.1" 0 ≤
      dictGetD (applyEvals defaultConfig preLocked mixedOps).blocked_ips "1.1.1.1" 0 ∧
    preLocked.global_block_until ≤
      (applyEvals defaultConfig preLocked mixedOps).global_block_until :=
  have h := c5_deadlines_extend_only defaultConfig (by decide) (by decide) (by decide)
    preLocked mixedOps
  ⟨h.1 "alice", h.2.1 "1.1.1.1", h.2.2⟩

/-! ### C6, C7: configuration updates -/

theorem mergeConfig_not_mem (c : List (String × CVal)) (data : List (String × CVal))
    (k : String) (h : k ∉ data.map Prod.fst) :
    dictGet (mergeConfig c data) k = dictGet c k := by
  induction data generalizing c with
  | nil => rfl
  | cons kv rest ih =>
      simp only [List.map_cons, List.mem_cons, not_or] at h
      obtain ⟨h1, h2⟩ := h
      simp only [mergeConfig]
      rw [ih _ h2]
      split
      · exact dictGet_dictSet_ne c kv.1 k kv.2 h1
      · rfl

theorem mergeConfig_not_allowed (c : List (String × CVal))
    (data : List (String × CVal)) (k : String) (h : k ∉ allowedKeys) :
    dictGet (mergeConfig c data) k = dictGet c k := by
  induction data generalizing c with
  | nil => rfl
  | cons kv rest ih =>
      by_cases hkv : kv.1 ∈ allowedKeys
      · simp only [mergeConfig, if_pos hkv]
        rw [ih]
        exact dictGet_dictSet_ne c kv.1 k kv.2 (fun he => h (by rw [he]; exact hkv))
      · simp only [mergeConfig, if_neg hkv]
        exact ih c

theorem mergeConfig_mem (data : List (String × CVal)) (k : String) (v : CVal)
    (hk : k ∈ allowedKeys) :
    ∀ c : List (String × CVal), (k, v) ∈ data → (data.map Prod.fst).Nodup →
      dictGet (mergeConfig c data) k = some v := by
  induction data with
  | nil =>
      intro c hmem _
      cases hmem
  | cons kv rest ih =>
      intro c hmem hnd
      obtain ⟨k1, v1⟩ := kv
      simp only [List.map_cons, List.nodup_cons] at hnd
      obtain ⟨hnotin, hndr⟩ := hnd
      rcases List.mem_cons.mp hmem with heq | htail
      · cases heq
        simp only [mergeConfig, if_pos hk]
        rw [mergeConfig_not_mem _ rest k hnotin]
        exact dictGet_dictSet_self c k v
      · simp only [mergeConfig]
        exact ih _ htail hndr

/-- Counterexample for C6: `configure` neither rejects nor clamps a
negative value — patching `account_lock_threshold` with `-1` stores
`-1` in the live configuration, which is not a positive integer. -/
theorem c6_negative_threshold_stored :
    dictGet (admin_config_post ⟨CONFIG0, emptyState⟩
        [("account_lock_threshold", CVal.num (-1))]).1.config
      "account_lock_threshold" = some (CVal.num (-1)) ∧
    ¬ (0 < (-1 : ℤ)) := by
  decide

/-- C6 amended: `configure` performs no validation — any value supplied
for a whitelisted key, negative thresholds/windows/durations included,
is stored as-is; and a configuration update never touches the engine's
counters or lock state, so already-pruned counters are not corrupted. -/
theorem c6_config_stores_unvalidated (st : ServerState)
    (data : List (String × CVal)) (k : String) (v : CVal)
    (hk : k ∈ allowedKeys) :
    (admin_config_post st data).1.engine = st.engine ∧
    dictGet (admin_config_post st [(k, v)]).1.config k = some v := by
  constructor
  · rfl
  · simp only [admin_config_post, mergeConfig, if_pos hk]
    exact dictGet_dictSet_self st.config k v

/-- Witness for the amended C6: patching `account_lock_window` with
`-7` leaves the engine state alone and stores `-7` verbatim. -/
theorem c6_config_witness :
    (admin_config_post ⟨CONFIG0, emptyState⟩
      [("account_lock_window", CVal.num (-7))]).1.engine = emptyState ∧
    dictGet (admin_config_post ⟨CONFIG0, emptyState⟩
        [("account_lock_window", CVal.num (-7))]).1.config "account_lock_window"
      = some (CVal.num (-7)) :=
  c6_config_stores_unvalidated ⟨CONFIG0, emptyState⟩
    [("account_lock_window", CVal.num (-7))] "account_lock_window"
    (CVal.num (-7)) (by decide)

/-- C7: the configuration POST merges exactly the whitelisted keys:
every whitelisted key present in the patch ends with its patched value,
keys absent from the patch keep their previous value, non-whitelisted
patch keys are silently ignored (the configuration is unchanged at
them), the reply is still `ok`, and the engine state is untouched by
the merge (it lives outside the config). -/
theorem c7_whitelist_merge (st : ServerState) (data : List (String × CVal))
    (hnd : (data.map Prod.fst).Nodup) :
    (∀ k v, (k, v) ∈ data → k ∈ allowedKeys →
      dictGet (admin_config_post st data).1.config k = some v) ∧
    (∀ k, k ∉ data.map Prod.fst →
      dictGet (admin_config_post st data).1.config k = dictGet st.config k) ∧
    (∀ k, k ∉ allowedKeys →
      dictGet (admin_config_post st data).1.config k = dictGet st.config k) ∧
    (admin_config_post st data).2 = true := by
  refine ⟨?_, ?_, ?_, rfl⟩
  · intro k v hmem hk
    exact mergeConfig_mem data k v hk st.config hmem hnd
  · intro k hknot
    exact mergeConfig_not_mem st.config data k hknot
  · intro k hknot
    exact mergeConfig_not_allowed st.config data k hknot

/-- A patch holding one recognized key and one unrecognized key. -/
def patchC7 : List (String × CVal) :=
  [("account_lock_threshold", CVal.num 7), ("bogus_key", CVal.num 1)]

/-- Witness for C7: merging `patchC7` updates the recognized key,
preserves an untouched key, ignores the unrecognized key, and reports
`ok`. -/
theorem c7_whitelist_witness :
    dictGet (admin_config_post ⟨CONFIG0, emptyState⟩ patchC7).1.config
      "account_lock_threshold" = some (CVal.num 7) ∧
    dictGet (admin_config_post ⟨CONFIG0, emptyState⟩ patchC7).1.config
      "ip_block_threshold" = dictGet CONFIG0 "ip_block_threshold" ∧
    dictGet (admin_config_post ⟨CONFIG0, emptyState⟩ patchC7).1.config
      "bogus_key" = dictGet CONFIG0 "bogus_key" ∧
    (admin_config_post ⟨CONFIG0, emptyState⟩ patchC7).2 = true :=
  have h := c7_whitelist_merge ⟨CONFIG0, emptyState⟩ patchC7 (by decide)
  ⟨h.1 "account_lock_threshold" (CVal.num 7) (by decide) (by decide),
   h.2.1 "ip_block_threshold" (by decide),
   h.2.2.1 "bogus_key" (by decide),
   h.2.2.2⟩

/-! ### C8: reset -/

/-- C8: `admin_reset_state` clears every account window and lock entry,
every address window and block entry, the global window and the global
block deadline; an evaluation performed immediately afterwards, for any
account and address whatsoever (hence any previously locked or blocked
one), returns `Admitted`. -/
theorem c8_reset_clears_all (s : EngineState) (cfg : Config) (u ip : String)
    (now : ℤ) (h : 0 ≤ now) :
    (admin_reset_state s).account_attempts = [] ∧
    (admin_reset_state s).locked_accounts = [] ∧
    (admin_reset_state s).ip_attempts = [] ∧
    (admin_reset_state s).blocked_ips = [] ∧
    (admin_reset_state s).global_attempts = [] ∧
    (admin_reset_state s).global_block_until = 0 ∧
    (evaluate cfg (admin_reset_state s) u ip now).1 = .Admitted := by
  refine ⟨rfl, rfl, rfl, rfl, rfl, rfl, ?_⟩
  have hG : check_global_block (admin_reset_state s) now = false := by
    simp only [check_global_block, admin_reset_state, decide_eq_false_iff_not, not_lt]
    exact h
  have hI : is_ip_blocked (admin_reset_state s) ip now = false := by
    simp only [is_ip_blocked, admin_reset_state, dictGetD, dictGet, Option.getD_none,
      decide_eq_false_iff_not, not_lt]
    exact h
  have hA : is_account_locked (admin_reset_state s) u now = false := by
    simp only [is_account_locked, admin_reset_state, dictGetD, dictGet, Option.getD_none,
      decide_eq_false_iff_not, not_lt]
    exact h
  simp [evaluate, hG, hI, hA]

/-- Witness for C8: resetting the pre-locked state `preLocked` empties
the lock map and the next evaluation for the previously locked account
and blocked address is admitted. -/
theorem c8_reset_witness :
    (admin_reset_state preLocked).locked_accounts = [] ∧
    (evaluate defaultConfig (admin_reset_state preLocked) "alice" "1.1.1.1" 1).1
      = .Admitted :=
  have h := c8_reset_clears_all preLocked defaultConfig "alice" "1.1.1.1" 1 (by decide)
  ⟨h.2.1, h.2.2.2.2.2.2⟩

/-! ### C9: strict query-time expiry -/

/-- C9: denial is a strict query-time comparison: a subject is denied
exactly when `now` is strictly below its stored deadline, is free the
instant `now` reaches the deadline (including exactly at it), and an
absent entry (at a non-negative epoch time) means not denied — for
accounts, addresses, and the global block alike. -/
theorem c9_strict_expiry (s : EngineState) (u a : String) (now : ℤ) :
    (is_account_locked s u now = true ↔ now < dictGetD s.locked_accounts u 0) ∧
    (dictGetD s.locked_accounts u 0 ≤ now → is_account_locked s u now = false) ∧
    is_account_locked s u (dictGetD s.locked_accounts u 0) = false ∧
    (dictGet s.locked_accounts u = none → 0 ≤ now →
      is_account_locked s u now = false) ∧
    (is_ip_blocked s a now = true ↔ now < dictGetD s.blocked_ips a 0) ∧
    (dictGetD s.blocked_ips a 0 ≤ now → is_ip_blocked s a now = false) ∧
    is_ip_blocked s a (dictGetD s.blocked_ips a 0) = false ∧
    (dictGet s.blocked_ips a = none → 0 ≤ now → is_ip_blocked s a now = false) ∧
    (check_global_block s now = true ↔ now < s.global_block_until) ∧
    (s.global_block_until ≤ now → check_global_block s now = false) := by
  refine ⟨?_, ?_, ?_, ?_, ?_, ?_, ?_, ?_, ?_, ?_⟩
  · simp [is_account_locked]
  · intro h
    simp only [is_account_locked, decide_eq_false_iff_not, not_lt]
    exact h
  · simp only [is_account_locked, decide_eq_false_iff_not, not_lt]
    exact le_refl _
  · intro hn h0
    simp only [is_account_locked, dictGetD, hn, Option.getD_none,
      decide_eq_false_iff_not, not_lt]
    exact h0
  · simp [is_ip_blocked]
  · intro h
    simp only [is_ip_blocked, decide_eq_false_iff_not, not_lt]
    exact h
  · simp only [is_ip_blocked, decide_eq_false_iff_not, not_lt]
    exact le_refl _
  · intro hn h0
    simp only [is_ip_blocked, dictGetD, hn, Option.getD_none,
      decide_eq_false_iff_not, not_lt]
    exact h0
  · simp [check_global_block]
  · intro h
    simp only [check_global_block, decide_eq_false_iff_not, not_lt]
    exact h

/-- Witness for C9 on `preLocked` at second 5: the lock on `alice`
(deadline 2) has expired, an account and an address with no entry are
not denied, a subject queried exactly at its own deadline is free, and
the global block (deadline 1) has expired. -/
theorem c9_strict_expiry_witness :
    is_account_locked preLocked "alice" 5 = false ∧
    is_account_locked preLocked "ghost" 5 = false ∧
    is_account_locked preLocked "alice" (dictGetD preLocked.locked_accounts "alice" 0)
      = false ∧
    is_ip_blocked preLocked "9.9.9.9" 5 = false ∧
    check_global_block preLocked 5 = false :=
  have h1 := c9_strict_expiry preLocked "ghost" "9.9.9.9" 5
  have h2 := c9_strict_expiry preLocked "alice" "1.1.1.1" 5
  ⟨h2.2.1 (by decide),
   h1.2.2.2.1 (by decide) (by decide),
   h2.2.2.1,
   h1.2.2.2.2.2.2.2.1 (by decide) (by decide),
   h1.2.2.2.2.2.2.2.2.2 (by decide)⟩

/-! ### C10: successful logins are metered identically -/

/-- The valid credentials submitted five times from one address at
seconds 0 through 4. -/
def successLogins5 : List (String × String × String × ℤ) :=
  [("testuser", "Password123", "9.9.9.9", 0),
   ("testuser", "Password123", "9.9.9.9", 1),
   ("testuser", "Password123", "9.9.9.9", 2),
   ("testuser", "Password123", "9.9.9.9", 3),
   ("testuser", "Password123", "9.9.9.9", 4)]

/-- C10: the password never influences the engine state — the attempt
is recorded before credentials are compared, so the state after `login`
equals the state after `evaluate` for any password; consequently five
successful logins for `testuser` within the window lock the account
exactly as failures would. -/
theorem c10_success_metered_like_failure (cfg : Config) (s : EngineState)
    (u p1 p2 ip : String) (now : ℤ) :
    (login cfg s u p1 ip now).2 = (login cfg s u p2 ip now).2 ∧
    (login cfg s u p1 ip now).2 = (evaluate cfg s u ip now).2 ∧
    (evaluate defaultConfig (loginSeq defaultConfig emptyState successLogins5)
      "testuser" "9.9.9.9" 5).1 = .AccountLocked := by
  have key : ∀ p, (login cfg s u p ip now).2 = (evaluate cfg s u ip now).2 := by
    intro p
    cases hg : check_global_block s now <;>
      cases hi : is_ip_blocked s ip now <;>
        cases ha : is_account_locked s u now <;>
          simp [login, evaluate, hg, hi, ha] <;>
            (try split) <;> rfl
  exact ⟨(key p1).trans (key p2).symm, key p1, by decide⟩

end AttackDefend
